import Mathlib

/-!
Verification development for `scripts/ppt_cloner.py`, a template-driven PPT
cloning script.  The script's data and operations are shallowly embedded:

* a presentation (`Prs`) is its relationship-id list plus its slide-id list,
  each slide carrying its rId, its layout name, and its shapes;
* a shape is its name, whether it bears a text frame, and its paragraphs,
  each paragraph a list of text runs (a run is a string);
* a Python `dict` of replacements is an association list in insertion order
  with pairwise-distinct keys (`Repl`); `dict` lookup is `List.lookup`;
* Python string operations are re-implemented over `List Char` so that all
  definitions evaluate inside the kernel: `strToLower` models `str.lower`
  (ASCII case folding, which agrees with Python on the ASCII/CJK data the
  script manipulates), `strTrim` models `str.strip` (ASCII whitespace),
  `strReplace` models `str.replace` (leftmost, non-overlapping, all
  occurrences; the degenerate empty pattern, which the script never feeds
  to `replace` with an effect we rely on, is modelled as the identity),
  `hasSubstr` models the `in` substring test and `strStartsWith` models
  `str.startswith`;
* uncaught Python exceptions are `Except.error`; a process exit status is a
  `Nat`; the file system is a partial map from paths to file contents.
-/

/-- One text run is a string; a paragraph is its runs; a shape mirrors the
fields of a python-pptx shape that `ppt_cloner.py` reads: `shape.name`,
`shape.has_text_frame` and the runs of its text frame. -/
structure Shape where
  name : String
  hasTextFrame : Bool
  paragraphs : List (List String)
deriving DecidableEq, Repr

/-- One entry of `prs.slides._sldIdLst`: its relationship id `rId`, the name
of its layout (`slide.slide_layout.name`) and its shapes. -/
structure SlideEntry where
  rId : Nat
  layout : String
  shapes : List Shape
deriving DecidableEq, Repr

/-- The in-memory presentation: the owning part's relationship ids
(`prs.part`) and the slide-id list (`prs.slides._sldIdLst`). -/
structure Prs where
  rels : List Nat
  slides : List SlideEntry
deriving DecidableEq, Repr

/-- A replacement dictionary: association list in insertion order. -/
abbrev Repl := List (String × String)

/-- ASCII whitespace, the characters `str.strip` removes on the data the
script handles. -/
def isWSChar (c : Char) : Bool :=
  c == ' ' || c == '\t' || c == '\n' || c == '\r'

/-- Model of Python `str.strip()`. -/
def strTrim (s : String) : String :=
  ⟨(((s.data.dropWhile isWSChar).reverse.dropWhile isWSChar).reverse)⟩

/-- Model of Python `str.lower()` (ASCII case folding). -/
def strToLower (s : String) : String :=
  ⟨s.data.map Char.toLower⟩

/-- Model of Python `str.startswith(pat)`. -/
def strStartsWith (s pat : String) : Bool :=
  pat.data.isPrefixOf s.data

/-- Model of the Python substring test `pat in s`. -/
def hasSubstr (s pat : String) : Bool :=
  s.data.tails.any (fun suf => pat.data.isPrefixOf suf)

/-- Fuel-driven core of `strReplace`: replaces every leftmost,
non-overlapping occurrence of `pat` by `rep`; the fuel is the length of the
text, which the recursion never exhausts. -/
def replaceFuel (pat rep : List Char) : Nat → List Char → List Char
  | 0, l => l
  | _ + 1, [] => []
  | fuel + 1, c :: rest =>
    if pat ≠ [] ∧ pat.isPrefixOf (c :: rest) then
      rep ++ replaceFuel pat rep fuel ((c :: rest).drop pat.length)
    else
      c :: replaceFuel pat rep fuel rest

/-- Model of Python `s.replace(pat, rep)`: all occurrences, scanned left to
right without overlap. -/
def strReplace (s pat rep : String) : String :=
  if pat.data = [] then s else ⟨replaceFuel pat.data rep.data s.data.length s.data⟩

/-- `shape.text_frame.text`: paragraph texts joined with a line feed, a
paragraph's text being the concatenation of its runs. -/
def shapeFullText (s : Shape) : String :=
  ⟨(List.intercalate ['\n'] (s.paragraphs.map (fun para => (para.map String.data).join)))⟩

/-- The `shape.text = value` setter: the whole content is replaced by the
assigned text. -/
def setShapeText (s : Shape) (t : String) : Shape :=
  { s with paragraphs := [[t]] }

/-- One key/value step of the run-level loop of `_apply_replacements`
(lines 264-268): named-shape keys are skipped; a key occurring in the run's
current text has all its occurrences replaced. -/
def stepRun (t : String) (kv : String × String) : String :=
  if strStartsWith kv.1 "shape:" then t
  else if hasSubstr t kv.1 then strReplace t kv.1 kv.2
  else t

/-- The full run-level pass over one run: dictionary entries applied in
insertion order, each key searching the text left by the prior
substitutions. -/
def applyRuns (repl : Repl) (t : String) : String :=
  repl.foldl stepRun t

/-- `_apply_replacements` restricted to one shape (the body of the
`for shape in slide.shapes` loop, lines 243-268): named-shape key first,
then exact whole-trimmed-text match against any key, else the run-level
pass over nonempty runs. -/
def applyShapeRepl (repl : Repl) (s : Shape) : Shape :=
  if s.hasTextFrame then
    match List.lookup ("shape:" ++ s.name) repl with
    | some v => setShapeText s v
    | none =>
      match List.lookup (strTrim (shapeFullText s)) repl with
      | some v => setShapeText s v
      | none =>
        { s with paragraphs :=
            s.paragraphs.map (fun para =>
              para.map (fun r => if r = "" then r else applyRuns repl r)) }
  else s

/-- `PPTCloner._apply_replacements(slide, replacements)`. -/
def _apply_replacements (repl : Repl) (shapes : List Shape) : List Shape :=
  shapes.map (applyShapeRepl repl)

/-- The character class of the regex `^[0-9０-９]+$` (ASCII and fullwidth
digits). -/
def isDigitCharCn (c : Char) : Bool :=
  ('0' ≤ c && c ≤ '9') || ('０' ≤ c && c ≤ '９')

/-- The numeric-token test of `_infer_slide_type` line 124:
`re.match(r'^[0-9０-９]+$', text) or text in ['01','02','03','04','05']`
(on stripped text, so the `$` newline subtlety of `re` cannot arise). -/
def isNumericTokenStr (s : String) : Bool :=
  (!s.data.isEmpty && s.data.all isDigitCharCn) || ["01", "02", "03", "04", "05"].contains s

/-- Per-slide summary: the fields of `SlideInfo` that `ppt_cloner.py`
fills in `_analyze_slide` (the constant `type` field is recomputed by
`_infer_slide_type`, so it is not stored here). -/
structure SlideInfo where
  layout_name : String
  text_elements : List (String × String)
  shape_count : Nat
  preview_text : String
deriving DecidableEq, Repr

/-- `'title'/'cover'/'封面' in layout_lower` (line 111). -/
def layoutCoverMatch (layoutLower : String) : Bool :=
  ["title", "cover", "封面"].any (fun k => hasSubstr layoutLower k)

/-- `'section'/'divider'/'章节' in layout_lower` (line 113). -/
def layoutSectionMatch (layoutLower : String) : Bool :=
  ["section", "divider", "章节"].any (fun k => hasSubstr layoutLower k)

/-- `'目录'/'contents'/'agenda' in all_text` (line 116). -/
def textTocMatch (allText : String) : Bool :=
  ["目录", "contents", "agenda"].any (fun k => hasSubstr allText k)

/-- `'谢谢'/'thank'/'感谢'/'聆听' in all_text` (line 118). -/
def textEndingMatch (allText : String) : Bool :=
  ["谢谢", "thank", "感谢", "聆听"].any (fun k => hasSubstr allText k)

/-- `all_text = ' '.join([t['text'].lower() for t in info.text_elements])`. -/
def allTextOf (info : SlideInfo) : String :=
  ⟨(List.intercalate [' '] (info.text_elements.map (fun t => (strToLower t.2).data)))⟩

/-- The divider heuristic of lines 121-125: at most 4 text elements, one of
them a numeric token after stripping. -/
def hasNumericElement (info : SlideInfo) : Bool :=
  info.text_elements.any (fun t => isNumericTokenStr (strTrim t.2))

/-- `PPTCloner._infer_slide_type(info, idx, total)` (lines 103-127).
`total` is accepted and ignored, as in the source. -/
def _infer_slide_type (info : SlideInfo) (idx : Nat) (total : Nat) : String :=
  if idx = 0 then "cover"
  else if layoutCoverMatch (strToLower info.layout_name) then "cover"
  else if layoutSectionMatch (strToLower info.layout_name) then "divider"
  else if textTocMatch (allTextOf info) then "toc"
  else if textEndingMatch (allTextOf info) then "ending"
  else if info.text_elements.length ≤ 4 && hasNumericElement info then "divider"
  else "content"

/-- `PPTCloner._analyze_slide` (lines 83-101), minus the stored `type`
(recomputed on demand by `typeAt`). -/
def _analyze_slide (e : SlideEntry) : SlideInfo :=
  let elems := e.shapes.filterMap (fun sh =>
    if sh.hasTextFrame then
      (let t := strTrim (shapeFullText sh)
       if t = "" then none else some (sh.name, t))
    else none)
  { layout_name := e.layout
    text_elements := elems
    shape_count := e.shapes.length
    preview_text := ((elems.head?).map (fun p => (⟨p.2.data.take 50⟩ : String))).getD "" }

/-- The per-slide summaries of `_analyze_template` in slide order. -/
def analyzeSlides (d : Prs) : List SlideInfo := d.slides.map _analyze_slide

/-- The category `_analyze_template` records for position `i`. -/
def typeAt (infos : List SlideInfo) (i : Nat) : String :=
  match infos[i]? with
  | some s => _infer_slide_type s i infos.length
  | none => ""

/-- `get_slides_by_type`: the ascending positions recorded under a category
by `_analyze_template` (positions are appended while scanning slides in
ascending order, lines 75-78), `[]` for an unknown category. -/
def get_slides_by_type (infos : List SlideInfo) (cat : String) : List Nat :=
  (List.range infos.length).filter (fun i => typeAt infos i == cat)

/-- One content-plan entry: optional explicit `template_slide`, optional
`type` category, optional `replacements` (absent modelled as `[]`). -/
structure PlanItem where
  template_slide : Option Nat
  type : Option String
  replacements : Repl
deriving DecidableEq, Repr

/-- The plan-entry resolution shared by `create_from_plan` (lines 154-159)
and `main` (lines 367-372): an explicit position wins; else the first slide
of the entry's category (default `'content'`); else position 0. -/
def resolvePlanEntry (infos : List SlideInfo) (item : PlanItem) : Nat :=
  match item.template_slide with
  | some i => i
  | none =>
    match get_slides_by_type infos (item.type.getD "content") with
    | [] => 0
    | x :: _ => x

/-- One deletion step (lines 218-221): read the slide's `rId` at `idx`,
drop that relationship from the owning part, then delete the entry from the
position list.  The out-of-range branch is unreachable in the script, which
only deletes indices below the slide count. -/
def deleteSlideAt (d : Prs) (idx : Nat) : Prs :=
  match d.slides[idx]? with
  | some e => { rels := d.rels.erase e.rId, slides := d.slides.eraseIdx idx }
  | none => d

/-- `sorted(set(range(total)) - set(slide_indices), reverse=True)`: the
strictly descending deletion schedule. -/
def toDeleteDesc (total : Nat) (keep : List Nat) : List Nat :=
  ((List.range total).filter (fun i => !(keep.contains i))).reverse

/-- The deletion loop of `create_simple` (lines 215-221) and
`create_from_plan` (lines 167-178). -/
def pruneSlides (d : Prs) (keep : List Nat) : Prs :=
  (toDeleteDesc d.slides.length keep).foldl deleteSlideAt d

/-- The dictionary built by `for old_idx in l: old_to_new[old_idx] = new_idx;
new_idx += 1` starting from counter `n`: a later assignment to the same key
overwrites an earlier one. -/
def buildMapFrom (n : Nat) : List Nat → Nat → Option Nat
  | [], _ => none
  | a :: rest, x =>
    match buildMapFrom (n + 1) rest x with
    | some v => some v
    | none => if x = a then some n else none

/-- The `old_to_new` mapping of `create_simple` (lines 224-228): the counter
runs over `sorted(slide_indices)` with duplicates included. -/
def buildOldToNew (keep : List Nat) : Nat → Option Nat :=
  buildMapFrom 0 (List.insertionSort (· ≤ ·) keep)

/-- The replacement loop of `create_simple` (lines 231-235):
`for i, old_idx in enumerate(slide_indices)`, guarded by membership in
`old_to_new` and `i < len(replacements_list)`; retrieving a slide past the
end of the pruned list raises `IndexError`. -/
def applyPhase (repls : List Repl) (m : Nat → Option Nat) :
    Nat → List Nat → List SlideEntry → Except String (List SlideEntry)
  | _, [], sl => Except.ok sl
  | i, old :: rest, sl =>
    match m old with
    | none => applyPhase repls m (i + 1) rest sl
    | some nIdx =>
      if i < repls.length then
        match sl[nIdx]? with
        | none => Except.error "IndexError"
        | some e =>
          applyPhase repls m (i + 1) rest
            (sl.set nIdx { e with shapes := _apply_replacements (repls.getD i []) e.shapes })
      else applyPhase repls m (i + 1) rest sl

/-- `PPTCloner.create_simple` (lines 204-239) up to the final save: open the
template, delete the unwanted slides in descending order, build the
old-to-new mapping, apply the replacements; an uncaught `IndexError`
surfaces as `Except.error`. -/
def create_simple (d : Prs) (slide_indices : List Nat) (replacements_list : List Repl) :
    Except String Prs :=
  let pruned := pruneSlides d slide_indices
  (applyPhase replacements_list (buildOldToNew slide_indices) 0 slide_indices pruned.slides).map
    (fun sl => { pruned with slides := sl })

/-- The `old_to_new` mapping of `create_from_plan` (lines 181-186): scan the
original positions in ascending order and count survivors. -/
def survivorMapLoop (keep : List Nat) : List Nat → Nat → Nat → Option Nat
  | [], _, _ => none
  | old :: rest, n, x =>
    if keep.contains old then
      (if x = old then some n else survivorMapLoop keep rest (n + 1) x)
    else survivorMapLoop keep rest n x

/-- `create_from_plan`'s survivor-count mapping over `range(total)`. -/
def survivorMap (total : Nat) (keep : List Nat) : Nat → Option Nat :=
  fun x => survivorMapLoop keep (List.range total) 0 x

/-- The replacement loop of `create_from_plan` (lines 189-194). -/
def applyPhaseFP (m : Nat → Option Nat) :
    List (Nat × Repl) → List SlideEntry → Except String (List SlideEntry)
  | [], sl => Except.ok sl
  | (src, rep) :: rest, sl =>
    match m src with
    | none => applyPhaseFP m rest sl
    | some nIdx =>
      match sl[nIdx]? with
      | none => Except.error "IndexError"
      | some e => applyPhaseFP m rest (sl.set nIdx { e with shapes := _apply_replacements rep e.shapes })

/-- `PPTCloner.create_from_plan` (lines 133-202) up to the final save,
with the cloner's `analysis` summarised by `infos`. -/
def create_from_plan (infos : List SlideInfo) (d : Prs) (plan : List PlanItem) :
    Except String Prs :=
  let keepPairs := plan.map (fun it => (resolvePlanEntry infos it, it.replacements))
  let keep := keepPairs.map Prod.fst
  let pruned := pruneSlides d keep
  (applyPhaseFP (survivorMap d.slides.length keep) keepPairs pruned.slides).map
    (fun sl => { pruned with slides := sl })

/-- The sublist of elements whose position satisfies `p`, in original
order: the specification-side characterisation of pruning. -/
def keepByPos (p : Nat → Bool) : List α → List α
  | [] => []
  | a :: t => if p 0 then a :: keepByPos (fun i => p (i + 1)) t else keepByPos (fun i => p (i + 1)) t

/-- The rIds of the entries whose position fails `p`, in ascending position
order: the relationship entries the pruning loop drops. -/
def droppedRIds (p : Nat → Bool) : List SlideEntry → List Nat
  | [] => []
  | a :: t =>
    if p 0 then droppedRIds (fun i => p (i + 1)) t
    else a.rId :: droppedRIds (fun i => p (i + 1)) t

/-- On-disk file contents relevant to the script: a presentation, or the
exported analysis JSON (modelled by the analysis record it serialises). -/
inductive FileData where
  | ppt (d : Prs)
  | analysisFile (infos : List SlideInfo)
deriving DecidableEq, Repr

/-- The file-system effect of one `create_simple(..., output_path)` run
launched on `template_path`: opening a missing or non-presentation template
raises before any mutation; an error during the run leaves the file system
untouched; on success the single write is `prs.save(output_path)`, executed
after all deletions and replacements (it is the last statement, line 237). -/
def create_simple_fs (fs : String → Option FileData) (tPath : String)
    (idxs : List Nat) (repls : List Repl) (outPath : String) : String → Option FileData :=
  match fs tPath with
  | some (FileData.ppt d) =>
    (match create_simple d idxs repls with
     | Except.error _ => fs
     | Except.ok out => fun p => if p = outPath then some (FileData.ppt out) else fs p)
  | _ => fs

/-- The file-system effect of one `create_from_plan(..., output_path)` run,
the analysis being taken from the same template (lines 54-60). -/
def create_from_plan_fs (fs : String → Option FileData) (tPath : String)
    (plan : List PlanItem) (outPath : String) : String → Option FileData :=
  match fs tPath with
  | some (FileData.ppt d) =>
    (match create_from_plan (analyzeSlides d) d plan with
     | Except.error _ => fs
     | Except.ok out => fun p => if p = outPath then some (FileData.ppt out) else fs p)
  | _ => fs

/-- The file-system effect of one `analyze` run: the template is only read;
the only write is the optional JSON export (lines 302-306). -/
def analyze_fs (fs : String → Option FileData) (tPath : String)
    (jsonOut : Option String) : String → Option FileData :=
  match fs tPath with
  | some (FileData.ppt d) =>
    (match jsonOut with
     | none => fs
     | some jp => fun p => if p = jp then some (FileData.analysisFile (analyzeSlides d)) else fs p)
  | _ => fs

/-- The exit status of `main()` (lines 309-381).  `argv` is the full
`sys.argv` including the program name; `fs` tells which paths exist and
what they hold; `planData` models opening and JSON-decoding the plan file
(`none` for a missing or malformed plan).  An uncaught Python exception
terminates the interpreter with status 1, which this function returns
directly on those paths. -/
def mainExitCode (argv : List String) (fs : String → Option FileData)
    (planData : String → Option (List PlanItem)) : Nat :=
  if argv.length < 2 then 1
  else if argv.getD 1 "" = "analyze" then
    (if argv.length < 3 then 1
     else
       match fs (argv.getD 2 "") with
       | some (FileData.ppt _) => 0
       | _ => 1)
  else if argv.getD 1 "" = "create" then
    (if argv.length < 5 then 1
     else
       match planData (argv.getD 3 "") with
       | none => 1
       | some plan =>
         match fs (argv.getD 2 "") with
         | some (FileData.ppt d) =>
           (match create_simple d (plan.map (resolvePlanEntry (analyzeSlides d)))
               (plan.map PlanItem.replacements) with
            | Except.ok _ => 0
            | Except.error _ => 1)
         | _ => 1)
  else 1


/-- A one-run text shape used by the concrete example presentations. -/
def mkRunShape (t : String) : Shape := ⟨"T", true, [[t]]⟩

/-- Three-slide example template (rIds 1, 2, 3; texts A, B, C). -/
def exC1Prs : Prs :=
  ⟨[1, 2, 3], [⟨1, "L", [mkRunShape "A"]⟩, ⟨2, "L", [mkRunShape "B"]⟩, ⟨3, "L", [mkRunShape "C"]⟩]⟩

/-- One replacement dictionary per entry of the duplicate-position plan. -/
def exC1Repls : List Repl := [[("A", "X")], [("A", "Y")], [("B", "Z")]]

/-- A slide with a shape named `Title` and a shape named `Other` whose full
text is literally the string `shape:Title`. -/
def exC3Shapes : List Shape := [⟨"Title", true, [["X"]]⟩, ⟨"Other", true, [["shape:Title"]]⟩]

/-- A shape named `Title`. -/
def exC3TitleShape : Shape := ⟨"Title", true, [["Old"]]⟩

/-- A non-cover slide summary whose only text is a table-of-contents
keyword. -/
def exC4TocInfo : SlideInfo := ⟨"Blank", [("t", "目录")], 1, "目录"⟩

/-- A one-slide template analysis whose only slide is classified `cover`. -/
def exC6Infos : List SlideInfo := [⟨"Cover Layout", [("t", "hi")], 1, "hi"⟩]

/-- A plan entry naming the category `toc`, which `exC6Infos` lacks. -/
def exC6Item : PlanItem := ⟨none, some "toc", []⟩

/-- A one-slide example template. -/
def exC7Prs : Prs := ⟨[1], [⟨1, "L", [mkRunShape "A"]⟩]⟩

/-- A one-slide example template. -/
def exC8Prs : Prs := ⟨[1], [⟨1, "L", [mkRunShape "A"]⟩]⟩

/-- A file system holding only the template `t.pptx`. -/
def exC8Fs : String → Option FileData :=
  fun p => if p = "t.pptx" then some (FileData.ppt exC8Prs) else none

/-- A one-slide example template. -/
def exC9Prs : Prs := ⟨[1], [⟨1, "L", [mkRunShape "A"]⟩]⟩

/-- A file system holding only the template `t.pptx`. -/
def exC9Fs : String → Option FileData :=
  fun p => if p = "t.pptx" then some (FileData.ppt exC9Prs) else none

/-- Plan-file contents: `plan.json` decodes to the empty plan. -/
def exC9Plan : String → Option (List PlanItem) :=
  fun p => if p = "plan.json" then some [] else none

/-- A two-slide example template. -/
def exC10Prs : Prs := ⟨[1, 2], [⟨1, "L", [mkRunShape "A"]⟩, ⟨2, "L", [mkRunShape "B"]⟩]⟩

/-- A file system holding only the template `t.pptx`. -/
def exC10Fs : String → Option FileData :=
  fun p => if p = "t.pptx" then some (FileData.ppt exC10Prs) else none

/-- Equation of `deleteSlideAt` at an out-of-range index. -/
theorem deleteSlideAt_none (d : Prs) (idx : Nat) (h : d.slides[idx]? = none) :
    deleteSlideAt d idx = d := by
  unfold deleteSlideAt
  rw [h]

/-- Equation of `deleteSlideAt` at an in-range index. -/
theorem deleteSlideAt_some (d : Prs) (idx : Nat) (e : SlideEntry)
    (h : d.slides[idx]? = some e) :
    deleteSlideAt d idx = Prs.mk (d.rels.erase e.rId) (d.slides.eraseIdx idx) := by
  unfold deleteSlideAt
  rw [h]

/-- Filtering a successor-shifted index list is the shift of filtering the
shifted predicate. -/
theorem filter_map_succ (q : Nat → Bool) :
    ∀ R : List Nat, (R.map Nat.succ).filter q = (R.filter (fun i => q (i + 1))).map Nat.succ := by
  intro R
  induction R with
  | nil => rfl
  | cons r R ih =>
    by_cases hq : q (r + 1)
    · simp only [List.map_cons, List.filter_cons, Nat.succ_eq_add_one, hq, if_pos, ih]
    · simp only [List.map_cons, List.filter_cons, Nat.succ_eq_add_one, hq, Bool.false_eq_true,
        if_neg, ih]
      simp [hq]

/-- Deleting only at successor positions leaves the head slide alone and
acts on the tail. -/
theorem foldr_delete_map_succ (A : List Nat) (rels : List Nat) (a : SlideEntry)
    (t : List SlideEntry) :
    List.foldr (fun x y => deleteSlideAt y x) (Prs.mk rels (a :: t)) (A.map Nat.succ)
      = Prs.mk (List.foldr (fun x y => deleteSlideAt y x) (Prs.mk rels t) A).rels
          (a :: (List.foldr (fun x y => deleteSlideAt y x) (Prs.mk rels t) A).slides) := by
  induction A with
  | nil => rfl
  | cons i A ih =>
    rw [List.map_cons, List.foldr_cons, ih, List.foldr_cons]
    cases hS : (List.foldr (fun x y => deleteSlideAt y x) (Prs.mk rels t) A).slides[i]? with
    | none =>
      rw [deleteSlideAt_none _ _ (by simpa using hS), deleteSlideAt_none _ _ hS]
    | some e =>
      rw [deleteSlideAt_some _ _ e (by simpa using hS), deleteSlideAt_some _ _ e hS]
      simp [List.eraseIdx_cons_succ]

/-- The core pruning characterisation: folding the descending deletion
schedule (consumed right to left by `foldr`) over a slide list removes
exactly the positions failing `p`, erasing each removed slide's rId from
the relationship list (in descending position order). -/
theorem foldr_delete_filter (t : List SlideEntry) :
    ∀ (p : Nat → Bool) (rels : List Nat),
      List.foldr (fun x y => deleteSlideAt y x) (Prs.mk rels t)
          ((List.range t.length).filter (fun i => !(p i)))
        = Prs.mk (rels.diff ((droppedRIds p t).reverse)) (keepByPos p t) := by
  induction t with
  | nil => intro p rels; simp [keepByPos, droppedRIds]
  | cons a t ih =>
    intro p rels
    rw [List.length_cons, List.range_succ_eq_map, List.filter_cons,
      filter_map_succ (fun i => !(p i)) (List.range t.length)]
    by_cases hp : p 0
    · simp only [hp, Bool.not_true, Bool.false_eq_true, if_neg, not_false_iff]
      rw [foldr_delete_map_succ, ih (fun i => p (i + 1)) rels]
      simp [keepByPos, droppedRIds, hp]
    · simp only [hp, Bool.not_false, if_pos, Bool.false_eq_true, not_false_iff]
      rw [List.foldr_cons, foldr_delete_map_succ, ih (fun i => p (i + 1)) rels]
      rw [deleteSlideAt_some _ _ a (by simp)]
      have hids : droppedRIds p (a :: t) = a.rId :: droppedRIds (fun i => p (i + 1)) t := by
        simp [droppedRIds, hp]
      have hkeep : keepByPos p (a :: t) = keepByPos (fun i => p (i + 1)) t := by
        simp [keepByPos, hp]
      rw [hids, hkeep, List.reverse_cons, List.diff_append, List.diff_cons, List.diff_nil]
      simp [List.eraseIdx_cons_zero]

/-- `pruneSlides` in closed form: surviving slides in original ascending
order, dropped rIds removed from the relationship list. -/
theorem pruneSlides_eq (d : Prs) (keep : List Nat) :
    pruneSlides d keep
      = Prs.mk (d.rels.diff ((droppedRIds (fun i => keep.contains i) d.slides).reverse))
          (keepByPos (fun i => keep.contains i) d.slides) := by
  show (toDeleteDesc d.slides.length keep).foldl deleteSlideAt d = _
  unfold toDeleteDesc
  rw [List.foldl_reverse]
  exact foldr_delete_filter d.slides (fun i => keep.contains i) d.rels

/-- The number of surviving positions equals the size of the kept index
set. -/
theorem keepByPos_length {α : Type} :
    ∀ (l : List α) (p : Nat → Bool),
      (keepByPos p l).length = ((List.range l.length).filter p).length := by
  intro l
  induction l with
  | nil => intro p; rfl
  | cons a t ih =>
    intro p
    rw [List.length_cons, List.range_succ_eq_map, List.filter_cons, filter_map_succ p]
    by_cases hp : p 0
    · simp [keepByPos, hp, ih (fun i => p (i + 1))]
    · simp [keepByPos, hp, ih (fun i => p (i + 1))]

/-- Survivors form a sublist of the original slide list: their relative
order is the original one. -/
theorem keepByPos_sublist {α : Type} :
    ∀ (l : List α) (p : Nat → Bool), (keepByPos p l).Sublist l := by
  intro l
  induction l with
  | nil => intro p; simp [keepByPos]
  | cons a t ih =>
    intro p
    by_cases hp : p 0
    · simpa [keepByPos, hp] using (ih (fun i => p (i + 1))).cons₂ a
    · simpa [keepByPos, hp] using (ih (fun i => p (i + 1))).cons a

/-- The deletion schedule is strictly descending. -/
theorem toDeleteDesc_strict_desc (total : Nat) (keep : List Nat) :
    List.Pairwise (fun a b => a > b) (toDeleteDesc total keep) := by
  unfold toDeleteDesc
  rw [List.pairwise_reverse]
  exact (List.pairwise_lt_range total).filter _

/-- C2: for every keep-set (the in-range positions listed in
`slide_indices`), `create_simple`'s pruning leaves exactly the kept
positions' slides, in their original relative ascending order (survivors
are `keepByPos`, a sublist of the original list), the output slide count is
the size of the keep-set, each deleted slide's relationship entry is
dropped from the owning part, and the deletion schedule visits positions in
strictly descending order. -/
theorem create_simple_pruning_invariant (d : Prs) (slide_indices : List Nat) :
    (pruneSlides d slide_indices).slides
        = keepByPos (fun i => slide_indices.contains i) d.slides
      ∧ (pruneSlides d slide_indices).slides.length
        = ((List.range d.slides.length).filter (fun i => slide_indices.contains i)).length
      ∧ (pruneSlides d slide_indices).slides.Sublist d.slides
      ∧ (pruneSlides d slide_indices).rels
        = d.rels.diff (droppedRIds (fun i => slide_indices.contains i) d.slides)
      ∧ List.Pairwise (fun a b => a > b) (toDeleteDesc d.slides.length slide_indices) := by
  rw [pruneSlides_eq]
  refine ⟨rfl, ?_, ?_, ?_, toDeleteDesc_strict_desc d.slides.length slide_indices⟩
  · exact keepByPos_length d.slides _
  · exact keepByPos_sublist d.slides _
  · exact List.Perm.diff_left d.rels (List.reverse_perm _)

/-- Every key that was assigned is present in the finished dictionary. -/
theorem buildMapFrom_isSome :
    ∀ (l : List Nat) (n x : Nat), x ∈ l → (buildMapFrom n l x).isSome = true := by
  intro l
  induction l with
  | nil => intro n x hx; cases hx
  | cons a rest ih =>
    intro n x hx
    simp only [buildMapFrom]
    cases hrec : buildMapFrom (n + 1) rest x with
    | some v => rfl
    | none =>
      rcases List.mem_cons.mp hx with hxa | hxr
      · simp [hxa]
      · have := ih (n + 1) x hxr
        rw [hrec] at this
        cases this

/-- On a sorted assignment order, the value recorded for `x` is at least
the start counter plus the number of elements smaller than `x`. -/
theorem buildMapFrom_lower_bound :
    ∀ (l : List Nat) (n x m : Nat), List.Sorted (· ≤ ·) l →
      buildMapFrom n l x = some m →
      n + List.countP (fun a => decide (a < x)) l ≤ m := by
  intro l
  induction l with
  | nil => intro n x m _ hm; cases hm
  | cons a rest ih =>
    intro n x m hs hm
    rw [List.sorted_cons] at hs
    obtain ⟨ha, hrest⟩ := hs
    rw [List.countP_cons]
    simp only [buildMapFrom] at hm
    cases hrec : buildMapFrom (n + 1) rest x with
    | some v =>
      rw [hrec] at hm
      cases hm
      have := ih (n + 1) x m hrest hrec
      by_cases hax : a < x <;> simp [hax] <;> omega
    | none =>
      rw [hrec] at hm
      by_cases hxa : x = a
      · rw [if_pos hxa] at hm
        cases hm
        have hz : List.countP (fun b => decide (b < x)) rest = 0 := by
          rw [List.countP_eq_zero]
          intro b hb
          simp only [decide_eq_true_eq]
          intro hbx
          exact absurd (lt_of_lt_of_le hbx (hxa ▸ ha b hb)) (lt_irrefl b)
        have haxf : ¬(a < x) := by rw [hxa]; exact lt_irrefl a
        simp [hz, haxf]
      · rw [if_neg hxa] at hm
        cases hm

/-- If some plan entry is guarded in (`old_to_new` membership and index
within the replacement list) but maps to a position at or past the end of
the pruned slide list, the replacement loop raises `IndexError`. -/
theorem applyPhase_error (repls : List Repl) (m : Nat → Option Nat) (x mv : Nat)
    (hm : m x = some mv) :
    ∀ (olds : List Nat) (i : Nat) (sl : List SlideEntry),
      x ∈ olds → i + olds.length ≤ repls.length → sl.length ≤ mv →
      ∃ msg, applyPhase repls m i olds sl = Except.error msg := by
  intro olds
  induction olds with
  | nil => intro i sl hx _ _; cases hx
  | cons y rest ih =>
    intro i sl hx hlen hsl
    have hi : i < repls.length := by
      rw [List.length_cons] at hlen; omega
    have hlen2 : (i + 1) + rest.length ≤ repls.length := by
      rw [List.length_cons] at hlen; omega
    by_cases hyx : y = x
    · subst hyx
      simp only [applyPhase, hm, if_pos hi]
      have hnone : sl[mv]? = none := List.getElem?_eq_none hsl
      rw [hnone]
      exact ⟨"IndexError", rfl⟩
    · have hxr : x ∈ rest := by
        rcases List.mem_cons.mp hx with h | h
        · exact absurd h.symm hyx
        · exact h
      simp only [applyPhase]
      cases hmy : m y with
      | none => exact ih (i + 1) sl hxr hlen2 hsl
      | some nIdx =>
        dsimp only
        rw [if_pos hi]
        cases hsome : sl[nIdx]? with
        | none => exact ⟨"IndexError", rfl⟩
        | some e =>
          refine ih (i + 1) _ hxr hlen2 ?_
          rw [List.length_set]
          exact hsl

/-- C7: a plan referencing an out-of-range template position (with one
replacement dictionary per entry, as the CLI always supplies) is not
bounds-checked before the deletion step — pruning still runs and computes
the keep-set's survivors — and the run then fails loudly: retrieving the
slide for replacement raises `IndexError`; the entry is never silently
dropped. -/
theorem create_simple_out_of_range_fails (d : Prs) (slide_indices : List Nat)
    (replacements_list : List Repl) (x : Nat)
    (hx : x ∈ slide_indices) (hoob : d.slides.length ≤ x)
    (hlen : slide_indices.length ≤ replacements_list.length) :
    (pruneSlides d slide_indices).slides.length
        = ((List.range d.slides.length).filter (fun i => slide_indices.contains i)).length
      ∧ ∃ msg, create_simple d slide_indices replacements_list = Except.error msg := by
  have hslides : (pruneSlides d slide_indices).slides.length
      = ((List.range d.slides.length).filter (fun i => slide_indices.contains i)).length := by
    rw [pruneSlides_eq]
    exact keepByPos_length d.slides _
  refine ⟨hslides, ?_⟩
  have hmemsort : x ∈ List.insertionSort (· ≤ ·) slide_indices :=
    ((List.perm_insertionSort (· ≤ ·) slide_indices).mem_iff).mpr hx
  obtain ⟨mv, hmv⟩ := Option.isSome_iff_exists.mp
    (buildMapFrom_isSome (List.insertionSort (· ≤ ·) slide_indices) 0 x hmemsort)
  have hbound := buildMapFrom_lower_bound (List.insertionSort (· ≤ ·) slide_indices) 0 x mv
    (List.sorted_insertionSort (· ≤ ·) slide_indices) hmv
  have hcount_perm :
      List.countP (fun a => decide (a < x)) (List.insertionSort (· ≤ ·) slide_indices)
        = List.countP (fun a => decide (a < x)) slide_indices :=
    List.Perm.countP_eq _ (List.perm_insertionSort (· ≤ ·) slide_indices)
  have hS_nodup :
      ((List.range d.slides.length).filter (fun i => slide_indices.contains i)).Nodup :=
    (List.nodup_range _).filter _
  have hS_sub :
      ((List.range d.slides.length).filter (fun i => slide_indices.contains i))
        ⊆ slide_indices.filter (fun a => decide (a < d.slides.length)) := by
    intro j hj
    rw [List.mem_filter, List.mem_range] at hj
    rw [List.mem_filter]
    refine ⟨?_, by simpa using hj.1⟩
    have hc := hj.2
    simpa using hc
  have hS_le := (hS_nodup.subperm hS_sub).length_le
  have hfilter_eq :
      (slide_indices.filter (fun a => decide (a < d.slides.length))).length
        = List.countP (fun a => decide (a < d.slides.length)) slide_indices :=
    (List.countP_eq_length_filter _ _).symm
  have hmono :
      List.countP (fun a => decide (a < d.slides.length)) slide_indices
        ≤ List.countP (fun a => decide (a < x)) slide_indices := by
    refine List.countP_mono_left ?_
    intro a _ h
    simp only [decide_eq_true_eq] at h ⊢
    omega
  have hmv_ge : List.countP (fun a => decide (a < x)) slide_indices ≤ mv := by
    rw [← hcount_perm]
    omega
  have hsl : (pruneSlides d slide_indices).slides.length ≤ mv := by
    rw [hslides]
    omega
  obtain ⟨msg, hmsg⟩ := applyPhase_error replacements_list (buildOldToNew slide_indices) x mv
    hmv slide_indices 0 (pruneSlides d slide_indices).slides hx (by omega) hsl
  refine ⟨msg, ?_⟩
  have hcs : create_simple d slide_indices replacements_list
      = (applyPhase replacements_list (buildOldToNew slide_indices) 0 slide_indices
          (pruneSlides d slide_indices).slides).map
          (fun sl => Prs.mk (pruneSlides d slide_indices).rels sl) := rfl
  rw [hcs, hmsg]
  rfl

/-- A dictionary of named-shape keys only leaves every run unchanged in the
run-level pass (named-shape keys are skipped there). -/
theorem applyRuns_all_shape_keys (repl : Repl)
    (hk : ∀ kv ∈ repl, strStartsWith kv.1 "shape:" = true) :
    ∀ t, applyRuns repl t = t := by
  induction repl with
  | nil => intro t; rfl
  | cons kv rest ih =>
    intro t
    have hstep : stepRun t kv = t := by
      unfold stepRun
      rw [if_pos (hk kv (List.mem_cons_self kv rest))]
    show applyRuns rest (stepRun t kv) = t
    rw [hstep]
    exact ih (fun kv2 h2 => hk kv2 (List.mem_cons_of_mem _ h2)) t

/-- C3 (amended): per text-bearing shape, `_apply_replacements` applies,
first match winning: (1) a named-shape key `shape:<name>` matching the
shape's name replaces the whole text; (2) otherwise any dictionary key —
named-shape keys included — equal to the shape's full trimmed text replaces
the whole text; (3) otherwise the run-level pass with plain keys only.
Consequently a dictionary of named-shape keys only leaves a shape untouched
when neither its name nor its full trimmed text matches a key. -/
theorem apply_replacements_precedence (repl : Repl) (s : Shape)
    (hs : s.hasTextFrame = true) :
    (∀ v, List.lookup ("shape:" ++ s.name) repl = some v →
        applyShapeRepl repl s = setShapeText s v)
    ∧ (List.lookup ("shape:" ++ s.name) repl = none →
        ∀ v, List.lookup (strTrim (shapeFullText s)) repl = some v →
          applyShapeRepl repl s = setShapeText s v)
    ∧ (List.lookup ("shape:" ++ s.name) repl = none →
        List.lookup (strTrim (shapeFullText s)) repl = none →
        applyShapeRepl repl s
          = { s with paragraphs := s.paragraphs.map (fun para =>
              para.map (fun r => if r = "" then r else applyRuns repl r)) })
    ∧ ((∀ kv ∈ repl, strStartsWith kv.1 "shape:" = true) →
        List.lookup ("shape:" ++ s.name) repl = none →
        List.lookup (strTrim (shapeFullText s)) repl = none →
        applyShapeRepl repl s = s) := by
  refine ⟨?_, ?_, ?_, ?_⟩
  · intro v hv
    simp [applyShapeRepl, hs, hv]
  · intro h0 v hv
    simp [applyShapeRepl, hs, h0, hv]
  · intro h0 h1
    simp [applyShapeRepl, hs, h0, h1]
  · intro hk h0 h1
    have h3 : applyShapeRepl repl s
        = { s with paragraphs := s.paragraphs.map (fun para =>
            para.map (fun r => if r = "" then r else applyRuns repl r)) } := by
      simp [applyShapeRepl, hs, h0, h1]
    rw [h3]
    have hrun : ∀ t, applyRuns repl t = t := applyRuns_all_shape_keys repl hk
    simp [hrun]

/-- C3 counterexample: with the dictionary `{"shape:Title": "New Title"}`,
the shape named `Other` — whose full text happens to be the literal string
`shape:Title` — is also fully replaced at the whole-text step, so a
named-shape key does not leave every other shape untouched. -/
theorem shape_named_key_fulltext_leak :
    (_apply_replacements [("shape:Title", "New Title")] exC3Shapes)[1]?
        = some (Shape.mk "Other" true [["New Title"]])
      ∧ (Shape.mk "Other" true [["New Title"]]).name ≠ "Title"
      ∧ Shape.mk "Other" true [["New Title"]] ≠ Shape.mk "Other" true [["shape:Title"]] := by
  refine ⟨rfl, by decide, by decide⟩

/-- C3 witness: a named-shape key matching the shape's name replaces its
whole text. -/
theorem apply_replacements_precedence_witness :
    applyShapeRepl [("shape:Title", "New Title")] exC3TitleShape
      = setShapeText exC3TitleShape "New Title" :=
  (apply_replacements_precedence [("shape:Title", "New Title")] exC3TitleShape rfl).1
    "New Title" rfl

/-- C5: run-level substitution applies dictionary entries in insertion
order, each later key searching the text left by prior substitutions
(cumulative, not parallel); a plain key occurring in the run has all its
occurrences replaced; a key matching nothing leaves the run unchanged with
no error; and two orderings of the same pairs can produce different
results. -/
theorem run_level_substitution (repl : Repl) (k v t : String) :
    applyRuns ((k, v) :: repl) t = applyRuns repl (stepRun t (k, v))
    ∧ (strStartsWith k "shape:" = false → hasSubstr t k = true →
        stepRun t (k, v) = strReplace t k v)
    ∧ (hasSubstr t k = false → stepRun t (k, v) = t)
    ∧ strReplace "banana" "an" "o" = "booa"
    ∧ applyRuns [("a", "b"), ("b", "c")] "a" = "c"
    ∧ applyRuns [("b", "c"), ("a", "b")] "a" = "b"
    ∧ applyRuns [("a", "b"), ("b", "c")] "a" ≠ applyRuns [("b", "c"), ("a", "b")] "a" := by
  refine ⟨rfl, ?_, ?_, by decide, by decide, by decide, by decide⟩
  · intro h1 h2
    simp [stepRun, h1, h2]
  · intro h1
    simp [stepRun, h1]

/-- C5 witness: a matched plain key is replaced via `strReplace`; an
unmatched key is ignored. -/
theorem run_level_substitution_witness :
    stepRun "banana" ("an", "o") = strReplace "banana" "an" "o"
    ∧ stepRun "banana" ("zz", "o") = "banana" :=
  ⟨(run_level_substitution [] "an" "o" "banana").2.1 (by decide) (by decide),
   (run_level_substitution [] "zz" "o" "banana").2.2.1 (by decide)⟩

/-- C4: `_infer_slide_type` follows the rule precedence — position 0 is
always `cover` regardless of content; else a cover-keyword layout match
gives `cover` and a section-keyword layout match gives `divider`; else
aggregate-text keyword matches give `toc` then `ending`; else at most 4
text elements with a numeric token give `divider`; else `content` — and the
result is a pure function of the summary and position (in particular
independent of the `total` argument). -/
theorem infer_slide_type_rules (info : SlideInfo) (idx total : Nat) :
    (idx = 0 → _infer_slide_type info idx total = "cover")
    ∧ (idx ≠ 0 → layoutCoverMatch (strToLower info.layout_name) = true →
        _infer_slide_type info idx total = "cover")
    ∧ (idx ≠ 0 → layoutCoverMatch (strToLower info.layout_name) = false →
        layoutSectionMatch (strToLower info.layout_name) = true →
        _infer_slide_type info idx total = "divider")
    ∧ (idx ≠ 0 → layoutCoverMatch (strToLower info.layout_name) = false →
        layoutSectionMatch (strToLower info.layout_name) = false →
        textTocMatch (allTextOf info) = true →
        _infer_slide_type info idx total = "toc")
    ∧ (idx ≠ 0 → layoutCoverMatch (strToLower info.layout_name) = false →
        layoutSectionMatch (strToLower info.layout_name) = false →
        textTocMatch (allTextOf info) = false →
        textEndingMatch (allTextOf info) = true →
        _infer_slide_type info idx total = "ending")
    ∧ (idx ≠ 0 → layoutCoverMatch (strToLower info.layout_name) = false →
        layoutSectionMatch (strToLower info.layout_name) = false →
        textTocMatch (allTextOf info) = false →
        textEndingMatch (allTextOf info) = false →
        info.text_elements.length ≤ 4 → hasNumericElement info = true →
        _infer_slide_type info idx total = "divider")
    ∧ (idx ≠ 0 → layoutCoverMatch (strToLower info.layout_name) = false →
        layoutSectionMatch (strToLower info.layout_name) = false →
        textTocMatch (allTextOf info) = false →
        textEndingMatch (allTextOf info) = false →
        ¬(info.text_elements.length ≤ 4 ∧ hasNumericElement info = true) →
        _infer_slide_type info idx total = "content")
    ∧ (∀ total2, _infer_slide_type info idx total = _infer_slide_type info idx total2) := by
  refine ⟨?_, ?_, ?_, ?_, ?_, ?_, ?_, fun total2 => rfl⟩
  · intro h0
    simp [_infer_slide_type, h0]
  · intro h0 h1
    simp [_infer_slide_type, h0, h1]
  · intro h0 h1 h2
    simp [_infer_slide_type, h0, h1, h2]
  · intro h0 h1 h2 h3
    simp [_infer_slide_type, h0, h1, h2, h3]
  · intro h0 h1 h2 h3 h4
    simp [_infer_slide_type, h0, h1, h2, h3, h4]
  · intro h0 h1 h2 h3 h4 h5 h6
    simp [_infer_slide_type, h0, h1, h2, h3, h4, h5, h6]
  · intro h0 h1 h2 h3 h4 h5
    simp only [_infer_slide_type, h0, h1, h2, h3, h4, if_false, Bool.false_eq_true]
    rw [if_neg ?_]
    intro hb
    rw [Bool.and_eq_true] at hb
    exact h5 ⟨by simpa using hb.1, hb.2⟩

/-- C4 witness: a non-cover-position slide whose text holds a
table-of-contents keyword is classified `toc`; the same summary at
position 0 is classified `cover`. -/
theorem infer_slide_type_rules_witness :
    _infer_slide_type exC4TocInfo 1 5 = "toc"
    ∧ _infer_slide_type exC4TocInfo 0 5 = "cover" :=
  ⟨(infer_slide_type_rules exC4TocInfo 1 5).2.2.2.1 (by decide) (by decide) (by decide)
      (by decide),
   (infer_slide_type_rules exC4TocInfo 0 5).1 rfl⟩

/-- C6: for a plan entry naming a category (no explicit position), the
positions recorded for a category are exactly the slides classified with
it; when no slide bears the category the entry resolves to position 0 with
no error; when some do, the entry resolves to the head of the recorded
list, which is the lowest such position. -/
theorem category_fallback_resolution (infos : List SlideInfo) (item : PlanItem)
    (h : item.template_slide = none) :
    (∀ j, j ∈ get_slides_by_type infos (item.type.getD "content")
        ↔ j < infos.length ∧ typeAt infos j = item.type.getD "content")
    ∧ (get_slides_by_type infos (item.type.getD "content") = [] →
        resolvePlanEntry infos item = 0)
    ∧ (∀ x rest, get_slides_by_type infos (item.type.getD "content") = x :: rest →
        resolvePlanEntry infos item = x
        ∧ ∀ j ∈ get_slides_by_type infos (item.type.getD "content"), x ≤ j) := by
  refine ⟨?_, ?_, ?_⟩
  · intro j
    unfold get_slides_by_type
    rw [List.mem_filter, List.mem_range]
    simp
  · intro hnil
    simp [resolvePlanEntry, h, hnil]
  · intro x rest hcons
    refine ⟨by simp [resolvePlanEntry, h, hcons], ?_⟩
    intro j hj
    have hpair : List.Pairwise (fun a b => a < b)
        (get_slides_by_type infos (item.type.getD "content")) :=
      (List.pairwise_lt_range infos.length).filter _
    rw [hcons] at hpair hj
    rcases List.mem_cons.mp hj with hjx | hjr
    · exact le_of_eq hjx.symm
    · exact le_of_lt ((List.pairwise_cons.mp hpair).1 j hjr)

/-- C6 witness: a plan entry asking for category `toc` against a template
with no `toc` slide resolves to position 0. -/
theorem category_fallback_resolution_witness :
    resolvePlanEntry exC6Infos exC6Item = 0 :=
  (category_fallback_resolution exC6Infos exC6Item rfl).2.1 (by decide)

/-- C1 (code-bug evidence): on a 3-slide template with the plan
`slide_indices = [0, 0, 1]` — two entries referencing position 0 — the
mapping `create_simple` builds from `sorted(slide_indices)` advances its
counter per entry, not per survivor: it sends 0 to 1 and 1 to 2, while the
ascending survivor-count mapping (the one `create_from_plan` builds and the
specification describes) sends 0 to 0 and 1 to 1.  Every requested position
is in range and kept, yet the run applies the first two dictionaries to the
wrong surviving slide and raises `IndexError` before any output exists. -/
theorem create_simple_duplicate_mapping_divergence :
    buildOldToNew [0, 0, 1] 0 = some 1
    ∧ buildOldToNew [0, 0, 1] 1 = some 2
    ∧ survivorMap 3 [0, 0, 1] 0 = some 0
    ∧ survivorMap 3 [0, 0, 1] 1 = some 1
    ∧ create_simple exC1Prs [0, 0, 1] exC1Repls = Except.error "IndexError"
    ∧ (∀ i ∈ [0, 0, 1], i < exC1Prs.slides.length) := by
  exact ⟨by decide, by decide, by decide, by decide, rfl, by decide⟩

/-- C8: the output file is written only after every deletion and
replacement has succeeded — a run of `create_simple` (or `create_from_plan`)
that raises leaves the file system exactly as it was, and a successful run
changes only the output path, writing the fully transformed document
there. -/
theorem output_written_only_on_success (fs : String → Option FileData)
    (tPath outPath : String) (idxs : List Nat) (repls : List Repl)
    (plan : List PlanItem) (d : Prs)
    (hfs : fs tPath = some (FileData.ppt d)) :
    ((∃ e, create_simple d idxs repls = Except.error e) →
        create_simple_fs fs tPath idxs repls outPath = fs)
    ∧ (∀ out, create_simple d idxs repls = Except.ok out →
        (create_simple_fs fs tPath idxs repls outPath) outPath = some (FileData.ppt out)
        ∧ ∀ p, p ≠ outPath → (create_simple_fs fs tPath idxs repls outPath) p = fs p)
    ∧ ((∃ e, create_from_plan (analyzeSlides d) d plan = Except.error e) →
        create_from_plan_fs fs tPath plan outPath = fs)
    ∧ (∀ out, create_from_plan (analyzeSlides d) d plan = Except.ok out →
        (create_from_plan_fs fs tPath plan outPath) outPath = some (FileData.ppt out)
        ∧ ∀ p, p ≠ outPath → (create_from_plan_fs fs tPath plan outPath) p = fs p) := by
  refine ⟨?_, ?_, ?_, ?_⟩
  · rintro ⟨e, he⟩
    unfold create_simple_fs
    rw [hfs]
    dsimp only
    rw [he]
  · intro out hout
    unfold create_simple_fs
    rw [hfs]
    dsimp only
    rw [hout]
    exact ⟨by simp, fun p hp => by simp [hp]⟩
  · rintro ⟨e, he⟩
    unfold create_from_plan_fs
    rw [hfs]
    dsimp only
    rw [he]
  · intro out hout
    unfold create_from_plan_fs
    rw [hfs]
    dsimp only
    rw [hout]
    exact ⟨by simp, fun p hp => by simp [hp]⟩

/-- C8 witness: a failing run (out-of-range position 5 against a one-slide
template) leaves the file system untouched. -/
theorem output_written_only_on_success_witness :
    create_simple_fs exC8Fs "t.pptx" [5] [[]] "out.pptx" = exC8Fs :=
  (output_written_only_on_success exC8Fs "t.pptx" "out.pptx" [5] [[]] [] exC8Prs rfl).1
    ⟨"IndexError", rfl⟩

/-- A command word read at `argv[1]` forces at least two arguments. -/
theorem argv_cmd_length (argv : List String) (c : String) (hc : argv.getD 1 "" = c)
    (hne : c ≠ "") : ¬(argv.length < 2) := by
  intro hlt
  rw [List.getD_eq_getElem?_getD, List.getElem?_eq_none (by omega)] at hc
  exact hne (hc.symm)

/-- C9: `main` exits with status 1 on missing or insufficient arguments, on
a missing template file (the uncaught `FileNotFoundError` terminates the
interpreter with status 1), and on an unknown command; a successful
`analyze` or `create` run exits with status 0. -/
theorem cli_exit_codes (argv : List String) (fs : String → Option FileData)
    (planData : String → Option (List PlanItem)) :
    (argv.length < 2 → mainExitCode argv fs planData = 1)
    ∧ (argv.getD 1 "" ≠ "analyze" → argv.getD 1 "" ≠ "create" →
        mainExitCode argv fs planData = 1)
    ∧ (argv.getD 1 "" = "analyze" → argv.length < 3 → mainExitCode argv fs planData = 1)
    ∧ (argv.getD 1 "" = "analyze" → 3 ≤ argv.length → fs (argv.getD 2 "") = none →
        mainExitCode argv fs planData = 1)
    ∧ (∀ d, argv.getD 1 "" = "analyze" → 3 ≤ argv.length →
        fs (argv.getD 2 "") = some (FileData.ppt d) → mainExitCode argv fs planData = 0)
    ∧ (argv.getD 1 "" = "create" → argv.length < 5 → mainExitCode argv fs planData = 1)
    ∧ (argv.getD 1 "" = "create" → 5 ≤ argv.length → fs (argv.getD 2 "") = none →
        mainExitCode argv fs planData = 1)
    ∧ (∀ plan d out, argv.getD 1 "" = "create" → 5 ≤ argv.length →
        planData (argv.getD 3 "") = some plan →
        fs (argv.getD 2 "") = some (FileData.ppt d) →
        create_simple d (plan.map (resolvePlanEntry (analyzeSlides d)))
            (plan.map PlanItem.replacements) = Except.ok out →
        mainExitCode argv fs planData = 0) := by
  refine ⟨?_, ?_, ?_, ?_, ?_, ?_, ?_, ?_⟩
  · intro hlt
    unfold mainExitCode
    rw [if_pos hlt]
  · intro hA hC
    by_cases hlt : argv.length < 2
    · unfold mainExitCode
      rw [if_pos hlt]
    · unfold mainExitCode
      rw [if_neg hlt, if_neg hA, if_neg hC]
  · intro hcmd hlt3
    have h2 := argv_cmd_length argv "analyze" hcmd (by decide)
    unfold mainExitCode
    rw [if_neg h2, if_pos hcmd, if_pos hlt3]
  · intro hcmd hge3 hfs
    have h2 := argv_cmd_length argv "analyze" hcmd (by decide)
    unfold mainExitCode
    rw [if_neg h2, if_pos hcmd, if_neg (Nat.not_lt.mpr hge3), hfs]
  · intro d hcmd hge3 hfs
    have h2 := argv_cmd_length argv "analyze" hcmd (by decide)
    unfold mainExitCode
    rw [if_neg h2, if_pos hcmd, if_neg (Nat.not_lt.mpr hge3), hfs]
  · intro hcmd hlt5
    have h2 := argv_cmd_length argv "create" hcmd (by decide)
    have hA : argv.getD 1 "" ≠ "analyze" := by rw [hcmd]; decide
    unfold mainExitCode
    rw [if_neg h2, if_neg hA, if_pos hcmd, if_pos hlt5]
  · intro hcmd hge5 hfs
    have h2 := argv_cmd_length argv "create" hcmd (by decide)
    have hA : argv.getD 1 "" ≠ "analyze" := by rw [hcmd]; decide
    unfold mainExitCode
    rw [if_neg h2, if_neg hA, if_pos hcmd, if_neg (Nat.not_lt.mpr hge5)]
    cases hplan : planData (argv.getD 3 "") with
    | none => rfl
    | some plan =>
      dsimp only
      rw [hfs]
  · intro plan d out hcmd hge5 hplan hfs hok
    have h2 := argv_cmd_length argv "create" hcmd (by decide)
    have hA : argv.getD 1 "" ≠ "analyze" := by rw [hcmd]; decide
    unfold mainExitCode
    rw [if_neg h2, if_neg hA, if_pos hcmd, if_neg (Nat.not_lt.mpr hge5), hplan]
    dsimp only
    rw [hfs]
    dsimp only
    rw [hok]

/-- C9 witness: no arguments exits 1; a known template analyzed exits 0; an
unknown command exits 1; a successful create run exits 0. -/
theorem cli_exit_codes_witness :
    mainExitCode ["ppt_cloner.py"] exC9Fs exC9Plan = 1
    ∧ mainExitCode ["ppt_cloner.py", "analyze", "t.pptx"] exC9Fs exC9Plan = 0
    ∧ mainExitCode ["ppt_cloner.py", "frobnicate"] exC9Fs exC9Plan = 1
    ∧ mainExitCode ["ppt_cloner.py", "create", "t.pptx", "plan.json", "out.pptx"]
        exC9Fs exC9Plan = 0 :=
  ⟨(cli_exit_codes ["ppt_cloner.py"] exC9Fs exC9Plan).1 (by decide),
   (cli_exit_codes ["ppt_cloner.py", "analyze", "t.pptx"] exC9Fs exC9Plan).2.2.2.2.1
     exC9Prs rfl (by decide) rfl,
   (cli_exit_codes ["ppt_cloner.py", "frobnicate"] exC9Fs exC9Plan).2.1 (by decide) (by decide),
   (cli_exit_codes ["ppt_cloner.py", "create", "t.pptx", "plan.json", "out.pptx"]
       exC9Fs exC9Plan).2.2.2.2.2.2.2 [] exC9Prs (Prs.mk [] []) rfl (by decide) rfl rfl rfl⟩

/-- C10 (amended): each operation opens the template read-only and writes
only to its caller-supplied output path (`create`) or analysis JSON path
(`analyze`); provided that path differs from the template path, the
template's on-disk content is identical before and after the run. -/
theorem template_preserved_when_paths_distinct (fs : String → Option FileData)
    (tPath outPath : String) (idxs : List Nat) (repls : List Repl)
    (plan : List PlanItem) (jsonOut : Option String) :
    (∀ p, p ≠ outPath → create_simple_fs fs tPath idxs repls outPath p = fs p)
    ∧ (∀ p, p ≠ outPath → create_from_plan_fs fs tPath plan outPath p = fs p)
    ∧ (∀ p, jsonOut ≠ some p → analyze_fs fs tPath jsonOut p = fs p)
    ∧ (tPath ≠ outPath → create_simple_fs fs tPath idxs repls outPath tPath = fs tPath)
    ∧ (tPath ≠ outPath → create_from_plan_fs fs tPath plan outPath tPath = fs tPath)
    ∧ (jsonOut ≠ some tPath → analyze_fs fs tPath jsonOut tPath = fs tPath) := by
  have hcs : ∀ p, p ≠ outPath → create_simple_fs fs tPath idxs repls outPath p = fs p := by
    intro p hp
    unfold create_simple_fs
    cases fs tPath with
    | none => rfl
    | some fd =>
      cases fd with
      | analysisFile infos => rfl
      | ppt d =>
        dsimp only
        cases create_simple d idxs repls with
        | error e => rfl
        | ok out => simp [hp]
  have hfp : ∀ p, p ≠ outPath → create_from_plan_fs fs tPath plan outPath p = fs p := by
    intro p hp
    unfold create_from_plan_fs
    cases fs tPath with
    | none => rfl
    | some fd =>
      cases fd with
      | analysisFile infos => rfl
      | ppt d =>
        dsimp only
        cases create_from_plan (analyzeSlides d) d plan with
        | error e => rfl
        | ok out => simp [hp]
  have han : ∀ p, jsonOut ≠ some p → analyze_fs fs tPath jsonOut p = fs p := by
    intro p hp
    unfold analyze_fs
    cases fs tPath with
    | none => rfl
    | some fd =>
      cases fd with
      | analysisFile infos => rfl
      | ppt d =>
        dsimp only
        cases hj : jsonOut with
        | none => rfl
        | some jp =>
          have hne : p ≠ jp := by
            intro hpe
            exact hp (by rw [hj, hpe])
          simp [hne]
  exact ⟨hcs, hfp, han, fun h => hcs tPath h, fun h => hfp tPath h, fun h => han tPath h⟩

/-- C10 counterexample: a successful `create_simple` run whose output path
is the template path itself overwrites the template: with a two-slide
template at `t.pptx` and the plan keeping only slide 0, the content stored
at `t.pptx` after the run differs from the content before. -/
theorem template_overwritten_when_output_is_template :
    create_simple_fs exC10Fs "t.pptx" [0] [[]] "t.pptx" "t.pptx" ≠ exC10Fs "t.pptx" := by
  decide

/-- C10 witness: with a distinct output path, the template entry is
untouched. -/
theorem template_preserved_when_paths_distinct_witness :
    create_simple_fs exC10Fs "t.pptx" [0] [[]] "out.pptx" "t.pptx" = exC10Fs "t.pptx" :=
  (template_preserved_when_paths_distinct exC10Fs "t.pptx" "out.pptx" [0] [[]] [] none).2.2.2.1
    (by decide)

/-- C7 witness: the plan `[5]` against a one-slide template deletes as
usual and then fails with `IndexError` at slide retrieval. -/
theorem create_simple_out_of_range_fails_witness :
    (pruneSlides exC7Prs [5]).slides.length
        = ((List.range exC7Prs.slides.length).filter (fun i => [5].contains i)).length
      ∧ ∃ msg, create_simple exC7Prs [5] [[]] = Except.error msg :=
  create_simple_out_of_range_fails exC7Prs [5] [[]] 5 (by decide) (by decide) (by decide)

